import Mathlib

/-!
# Verification of the pc-speaker melody player

A shallow embedding of the core logic of `src/main.rs`: the note/duration
tables, the custom-melody line parser of `play_custom_song`, the outcome and
control flow of the custom-song path through `main`'s menu loop, and the
frequency-to-counter conversion of `kernel_beep`. Machine integers (`u32`)
are modelled as `Nat` with explicit `% 2^32` where wrap-around matters, and
Rust's fallible operations as `Option` / `Except`.
-/

namespace PcSpeaker

/-! ## Constants from `main.rs` -/

/-- Timer base for the PC speaker, `const HZ: u32 = 1193180`. -/
def HZ : Nat := 1193180

def NOTE_C4 : Nat := 262
def NOTE_CS4 : Nat := 277
def NOTE_D4 : Nat := 294
def NOTE_DS4 : Nat := 311
def NOTE_E4 : Nat := 330
def NOTE_F4 : Nat := 349
def NOTE_FS4 : Nat := 370
def NOTE_G4 : Nat := 392
def NOTE_GS4 : Nat := 415
def NOTE_A4 : Nat := 440
def NOTE_AS4 : Nat := 466
def NOTE_B4 : Nat := 494

def NOTE_C5 : Nat := 523
def NOTE_CS5 : Nat := 554
def NOTE_D5 : Nat := 587
def NOTE_DS5 : Nat := 622
def NOTE_E5 : Nat := 659
def NOTE_F5 : Nat := 698
def NOTE_FS5 : Nat := 740
def NOTE_G5 : Nat := 784
def NOTE_GS5 : Nat := 831
def NOTE_A5 : Nat := 880
def NOTE_AS5 : Nat := 932
def NOTE_B5 : Nat := 988

def NOTE_C3 : Nat := 131
def NOTE_CS3 : Nat := 139
def NOTE_D3 : Nat := 147
def NOTE_DS3 : Nat := 156
def NOTE_E3 : Nat := 165
def NOTE_F3 : Nat := 175
def NOTE_FS3 : Nat := 185
def NOTE_G3 : Nat := 196
def NOTE_GS3 : Nat := 208
def NOTE_A3 : Nat := 220
def NOTE_AS3 : Nat := 233
def NOTE_B3 : Nat := 247

def NOTE_REST : Nat := 0

def WHOLE : Nat := 1000
def HALF : Nat := 500
def QUARTER : Nat := 250
def EIGHTH : Nat := 125
def SIXTEENTH : Nat := 63

/-! ## Data model -/

/-- `struct Note { frequency: u32, duration_ms: u32 }` — one tone event. -/
structure Note where
  frequency : Nat
  duration_ms : Nat
deriving DecidableEq, Repr

/-! ## String primitives

The parser uses Rust's `str::trim`, `str::split_whitespace`,
`str::to_uppercase`, `str::starts_with('#')` and `u32::from_str`. They are
modelled structurally on the character list of the string (the melody files
are ASCII, where Rust's Unicode-aware versions coincide with these). -/

/-- Rust `str::trim`: drop leading and trailing whitespace. -/
def myTrim (s : String) : String :=
  String.mk (((s.data.dropWhile Char.isWhitespace).reverse.dropWhile
    Char.isWhitespace).reverse)

/-- Worker for `splitWhitespace`: `acc` holds the current token reversed. -/
def splitWSAux : List Char → List Char → List (List Char)
  | [], acc => if acc.isEmpty then [] else [acc.reverse]
  | c :: cs, acc =>
    if c.isWhitespace then
      if acc.isEmpty then splitWSAux cs [] else acc.reverse :: splitWSAux cs []
    else splitWSAux cs (c :: acc)

/-- Rust `str::split_whitespace`: maximal runs of non-whitespace characters;
runs of whitespace separate tokens and produce no empty tokens. -/
def splitWhitespace (s : String) : List String :=
  (splitWSAux s.data []).map String.mk

/-- Rust `str::to_uppercase` (ASCII range). -/
def toUpperStr (s : String) : String :=
  String.mk (s.data.map Char.toUpper)

/-- Rust `str::starts_with('#')`. -/
def startsWithHash (s : String) : Bool :=
  match s.data with
  | '#' :: _ => true
  | _ => false

/-- Rust `u32::from_str` (`"token".parse::<u32>()`): an optional leading
`'+'`, then one or more ASCII digits, value below `2^32`; anything else —
including overflow — is an error, modelled as `none`. -/
def parseU32 (s : String) : Option Nat :=
  let cs := match s.data with
    | '+' :: rest => rest
    | other => other
  if cs.isEmpty then none
  else if cs.all Char.isDigit then
    let n := cs.foldl (fun acc c => acc * 10 + (c.toNat - 48)) 0
    if n < 4294967296 then some n else none
  else none

/-! ## Tone table (`note_map` and `duration_map` of `play_custom_song`) -/

/-- The `note_map` insertions of `play_custom_song`, in source order. -/
def noteMap : List (String × Nat) :=
  [("C3", NOTE_C3), ("CS3", NOTE_CS3), ("D3", NOTE_D3), ("DS3", NOTE_DS3),
   ("E3", NOTE_E3), ("F3", NOTE_F3), ("FS3", NOTE_FS3), ("G3", NOTE_G3),
   ("GS3", NOTE_GS3), ("A3", NOTE_A3), ("AS3", NOTE_AS3), ("B3", NOTE_B3),
   ("C4", NOTE_C4), ("CS4", NOTE_CS4), ("D4", NOTE_D4), ("DS4", NOTE_DS4),
   ("E4", NOTE_E4), ("F4", NOTE_F4), ("FS4", NOTE_FS4), ("G4", NOTE_G4),
   ("GS4", NOTE_GS4), ("A4", NOTE_A4), ("AS4", NOTE_AS4), ("B4", NOTE_B4),
   ("C5", NOTE_C5), ("CS5", NOTE_CS5), ("D5", NOTE_D5), ("DS5", NOTE_DS5),
   ("E5", NOTE_E5), ("F5", NOTE_F5), ("FS5", NOTE_FS5), ("G5", NOTE_G5),
   ("GS5", NOTE_GS5), ("A5", NOTE_A5), ("AS5", NOTE_AS5), ("B5", NOTE_B5),
   ("REST", NOTE_REST)]

/-- The `duration_map` insertions of `play_custom_song`. -/
def durationMap : List (String × Nat) :=
  [("W", WHOLE), ("H", HALF), ("Q", QUARTER), ("E", EIGHTH), ("S", SIXTEENTH)]

/-- Note-token resolution: `note_map.get(&note_name)` on the upper-cased
token, else `note_name.parse::<u32>()` (the code parses the upper-cased
token, which on digits is the token itself). -/
def resolveFrequency (tok : String) : Option Nat :=
  match List.lookup (toUpperStr tok) noteMap with
  | some f => some f
  | none => parseU32 (toUpperStr tok)

/-- Duration-token resolution: `duration_map.get(&duration_part.to_uppercase())`,
else `duration_part.parse::<u32>()` on the original token. -/
def resolveDuration (tok : String) : Option Nat :=
  match List.lookup (toUpperStr tok) durationMap with
  | some d => some d
  | none => parseU32 tok

/-! ## The per-line parser of `play_custom_song` -/

/-- What one iteration of the parse loop does with its line: fall through
silently (blank/comment), print a warning and `continue`, or push a note. -/
inductive LineResult where
  | skip
  | warn (msg : String)
  | event (n : Note)
deriving DecidableEq, Repr

/-- Whether a line result pushes a note. -/
def LineResult.isEvent : LineResult → Bool
  | .event _ => true
  | _ => false

/-- One iteration of the `for line in reader.lines()` loop body of
`play_custom_song` (after the `line?` read), for a single raw line. -/
def processLine (rawLine : String) : LineResult :=
  let line := myTrim rawLine
  if line.data.isEmpty || startsWithHash line then
    LineResult.skip
  else
    let parts := splitWhitespace line
    if parts.length ≠ 2 then
      LineResult.warn ("Warning: Invalid line format: " ++ line)
    else
      match resolveFrequency (parts.getD 0 "") with
      | none =>
        LineResult.warn ("Warning: Unknown note name: " ++ toUpperStr (parts.getD 0 ""))
      | some freq =>
        match resolveDuration (parts.getD 1 "") with
        | none => LineResult.warn ("Warning: Unknown duration: " ++ parts.getD 1 "")
        | some dur => LineResult.event (Note.mk freq dur)

/-- The whole parse loop: the pushed notes in order, and the warnings
printed, in order. -/
def parseMelody : List String → List Note × List String
  | [] => ([], [])
  | l :: rest =>
    match processLine l with
    | LineResult.skip => parseMelody rest
    | LineResult.warn m => ((parseMelody rest).1, m :: (parseMelody rest).2)
    | LineResult.event n => (n :: (parseMelody rest).1, (parseMelody rest).2)

/-! ## Outcome of `play_custom_song` and the menu loop of `main` -/

/-- The user-visible outcome of a `play_custom_song` call that returns
`Ok(())`: the early `File not found` return, the `No valid notes found`
return, or playback — `played` carries the `kernel_beep` calls issued by the
final loop, in order. -/
inductive SongOutcome where
  | fileNotFound
  | noValidNotes
  | played (beeps : List Note)
deriving DecidableEq, Repr

/-- `play_custom_song`, abstracted over its interaction with the filesystem:
`pathExists` is `Path::new(path).exists()`, and `openResult` is the result
of `File::open(path)?` together with reading all lines (`line?`) — an
`io::Error` anywhere there propagates out via `?`. -/
def play_custom_song (pathExists : Bool) (openResult : Except Unit (List String)) :
    Except Unit SongOutcome :=
  if !pathExists then Except.ok SongOutcome.fileNotFound
  else
    match openResult with
    | Except.error e => Except.error e
    | Except.ok lines =>
      let notes := (parseMelody lines).1
      if notes.isEmpty then Except.ok SongOutcome.noValidNotes
      else Except.ok (SongOutcome.played notes)

/-- What `main`'s menu loop does after the `"7" => play_custom_song()?` arm. -/
inductive MainStep where
  | continueMenu
  | terminated
deriving DecidableEq, Repr

/-- The `"7" => play_custom_song()?` arm of `main`: an `Err` makes `?` return
the error from `main`, ending the process; an `Ok` falls through and the
`loop` shows the menu again. -/
def mainCustomSongStep (pathExists : Bool) (openResult : Except Unit (List String)) :
    MainStep :=
  match play_custom_song pathExists openResult with
  | Except.error _ => MainStep.terminated
  | Except.ok _ => MainStep.continueMenu

/-! ## `kernel_beep`'s frequency-to-counter conversion -/

/-- Division that fails on a zero divisor, to make a division by zero in the
embedded code observable rather than Lean's `n / 0 = 0`. -/
def checkedDiv (a b : Nat) : Option Nat :=
  if b = 0 then none else some (a / b)

/-- The `arg` computation of `kernel_beep`: `0` for silence, otherwise
`(HZ / frequency) & 0xffff | (duration_ms << 16)` on `u32` (the shift wraps
modulo `2^32`). The division is expressed with `checkedDiv`, so the result
is `none` exactly when a division by zero would occur. -/
def kernel_beep_arg (frequency duration_ms : Nat) : Option Nat :=
  if frequency = 0 then some 0
  else
    match checkedDiv HZ frequency with
    | none => none
    | some q => some ((q.land 0xffff).lor ((duration_ms * 2 ^ 16) % 2 ^ 32))

/-! ## The Jingle Bells preset (`play_jingle_bells`) -/

/-- The hardcoded `notes` array of `play_jingle_bells`, in source order. -/
def jingleBells : List Note :=
  [Note.mk NOTE_E4 QUARTER, Note.mk NOTE_E4 QUARTER, Note.mk NOTE_E4 HALF,
   Note.mk NOTE_E4 QUARTER, Note.mk NOTE_E4 QUARTER, Note.mk NOTE_E4 HALF,
   Note.mk NOTE_E4 QUARTER, Note.mk NOTE_G4 QUARTER, Note.mk NOTE_C4 QUARTER,
   Note.mk NOTE_D4 QUARTER,
   Note.mk NOTE_E4 WHOLE,
   Note.mk NOTE_F4 QUARTER, Note.mk NOTE_F4 QUARTER, Note.mk NOTE_F4 QUARTER,
   Note.mk NOTE_F4 QUARTER,
   Note.mk NOTE_F4 QUARTER, Note.mk NOTE_E4 QUARTER, Note.mk NOTE_E4 QUARTER,
   Note.mk NOTE_E4 QUARTER,
   Note.mk NOTE_E4 QUARTER, Note.mk NOTE_D4 QUARTER, Note.mk NOTE_D4 QUARTER,
   Note.mk NOTE_E4 QUARTER,
   Note.mk NOTE_D4 HALF, Note.mk NOTE_G4 HALF,
   Note.mk NOTE_E4 QUARTER, Note.mk NOTE_E4 QUARTER, Note.mk NOTE_E4 HALF,
   Note.mk NOTE_E4 QUARTER, Note.mk NOTE_E4 QUARTER, Note.mk NOTE_E4 HALF,
   Note.mk NOTE_E4 QUARTER, Note.mk NOTE_G4 QUARTER, Note.mk NOTE_C4 QUARTER,
   Note.mk NOTE_D4 QUARTER,
   Note.mk NOTE_E4 WHOLE]

/-- The same preset spelled as `<NOTE> <DURATION>` text directives, one line
per preset note, with the symbolic note and duration names. -/
def jingleBellsText : List String :=
  ["E4 Q", "E4 Q", "E4 H",
   "E4 Q", "E4 Q", "E4 H",
   "E4 Q", "G4 Q", "C4 Q", "D4 Q",
   "E4 W",
   "F4 Q", "F4 Q", "F4 Q", "F4 Q",
   "F4 Q", "E4 Q", "E4 Q", "E4 Q",
   "E4 Q", "D4 Q", "D4 Q", "E4 Q",
   "D4 H", "G4 H",
   "E4 Q", "E4 Q", "E4 H",
   "E4 Q", "E4 Q", "E4 H",
   "E4 Q", "G4 Q", "C4 Q", "D4 Q",
   "E4 W"]

/-! ## Helper lemmas -/

/-- A string that splits into tokens is not empty. -/
lemma data_not_empty_of_split_len (s : String) (h : (splitWhitespace s).length = 2) :
    s.data.isEmpty = false := by
  cases hcs : s.data with
  | nil =>
    exfalso
    have hsplit : splitWhitespace s = [] := by
      unfold splitWhitespace
      rw [hcs]
      rfl
    rw [hsplit] at h
    simp at h
  | cons a as => simp [hcs]

/-- Every value in `duration_map` is positive. -/
lemma durationMap_lookup_pos (k : String) (d : Nat)
    (h : List.lookup k durationMap = some d) : 0 < d := by
  simp only [durationMap, List.lookup] at h
  repeat' split at h
  all_goals simp_all [WHOLE, HALF, QUARTER, EIGHTH, SIXTEENTH]
  all_goals omega

/-- A successfully resolved duration is positive unless the token was taken
by the numeric-literal fallback with value `0`. -/
lemma resolveDuration_pos_or_zero_literal (tok : String) (d : Nat)
    (h : resolveDuration tok = some d) : 0 < d ∨ parseU32 tok = some 0 := by
  unfold resolveDuration at h
  split at h
  case h_1 d' heq =>
    left
    cases h
    exact durationMap_lookup_pos _ _ heq
  case h_2 heq =>
    rcases Nat.eq_zero_or_pos d with hd | hd
    · right
      rw [← hd]
      exact h
    · left
      exact hd

/-- A pushed note's duration is the resolution of the line's second token. -/
lemma processLine_event_duration (l : String) (n : Note)
    (h : processLine l = LineResult.event n) :
    resolveDuration ((splitWhitespace (myTrim l)).getD 1 "") = some n.duration_ms := by
  simp only [processLine] at h
  split at h
  · exact absurd h (by simp)
  · split at h
    · exact absurd h (by simp)
    · split at h
      · exact absurd h (by simp)
      · split at h
        · exact absurd h (by simp)
        case h_2 freq hfreq dur hdur =>
          cases h
          exact hdur

/-- If no line of the source pushes a note, the parsed sequence is empty. -/
lemma parseMelody_no_events (lines : List String)
    (h : ∀ l ∈ lines, (processLine l).isEvent = false) :
    (parseMelody lines).1 = [] := by
  induction lines with
  | nil => rfl
  | cons l rest ih =>
    have hl := h l (List.mem_cons_self _ _)
    have hrest : ∀ l2 ∈ rest, (processLine l2).isEvent = false :=
      fun l2 hl2 => h l2 (List.mem_cons_of_mem _ hl2)
    rw [parseMelody]
    cases hp : processLine l with
    | skip => exact ih hrest
    | warn m => simpa using ih hrest
    | event n => rw [hp] at hl; simp [LineResult.isEvent] at hl

/-! ## The claims -/

/-- C1 (counterexample): the claim that every pushed `ToneEvent` has
duration strictly greater than 0 — in particular that a duration token `"0"`
never contributes an event — fails on the concrete source `["A4 0"]`: the
numeric fallback `duration_part.parse::<u32>()` accepts `"0"` and the parser
pushes `Note { frequency: 440, duration_ms: 0 }`. -/
theorem c1_duration_zero_counterexample :
    (parseMelody ["A4 0"]).1 = [Note.mk 440 0] ∧
    ¬ (∀ e ∈ (parseMelody ["A4 0"]).1, 0 < e.duration_ms) := by
  decide

/-- C1 (amended): every `ToneEvent` pushed by the parser has positive
duration unless the line's duration token is a numeric literal denoting `0`,
which the numeric fallback accepts and pushes with duration `0`; symbolic
duration codes always yield a positive duration. -/
theorem c1_amended_duration_positive (lines : List String) (e : Note)
    (h : e ∈ (parseMelody lines).1) :
    0 < e.duration_ms ∨
      ∃ l ∈ lines, processLine l = LineResult.event e ∧
        parseU32 ((splitWhitespace (myTrim l)).getD 1 "") = some 0 := by
  induction lines with
  | nil => simp [parseMelody] at h
  | cons l rest ih =>
    rw [parseMelody] at h
    cases hp : processLine l with
    | skip =>
      rw [hp] at h
      rcases ih h with h1 | ⟨l2, hl2, h2⟩
      · exact Or.inl h1
      · exact Or.inr ⟨l2, List.mem_cons_of_mem _ hl2, h2⟩
    | warn m =>
      rw [hp] at h
      rcases ih h with h1 | ⟨l2, hl2, h2⟩
      · exact Or.inl h1
      · exact Or.inr ⟨l2, List.mem_cons_of_mem _ hl2, h2⟩
    | event n =>
      rw [hp] at h
      rcases List.mem_cons.mp h with he | he
      · subst he
        have hdur := processLine_event_duration l e hp
        rcases resolveDuration_pos_or_zero_literal _ _ hdur with hpos | hzero
        · exact Or.inl hpos
        · exact Or.inr ⟨l, List.mem_cons_self _ _, hp, hzero⟩
      · rcases ih he with h1 | ⟨l2, hl2, h2⟩
        · exact Or.inl h1
        · exact Or.inr ⟨l2, List.mem_cons_of_mem _ hl2, h2⟩

/-- Witness for C1 (amended) at the source `["C4 Q"]` and its parsed note. -/
theorem c1_amended_duration_positive_witness :
    Note.mk 262 250 ∈ (parseMelody ["C4 Q"]).1 ∧
      (0 < (Note.mk 262 250).duration_ms ∨
        ∃ l ∈ ["C4 Q"], processLine l = LineResult.event (Note.mk 262 250) ∧
          parseU32 ((splitWhitespace (myTrim l)).getD 1 "") = some 0) :=
  ⟨by decide, c1_amended_duration_positive ["C4 Q"] (Note.mk 262 250) (by decide)⟩

/-- C2 (counterexample): when the path exists but `File::open(path)?` (or a
`line?` read) fails, the `io::Error` propagates out of `play_custom_song`,
and `main`'s `play_custom_song()?` arm returns it from `main`, ending the
process instead of continuing the menu loop. -/
theorem c2_open_failure_counterexample :
    play_custom_song true (Except.error ()) = Except.error () ∧
    mainCustomSongStep true (Except.error ()) = MainStep.terminated ∧
    MainStep.terminated ≠ MainStep.continueMenu :=
  ⟨rfl, rfl, by decide⟩

/-- C2 (amended): when the melody path does not exist, `play_custom_song`
prints `File not found`, returns `Ok(())`, and the menu loop continues —
only that case is non-fatal to the process; when the path exists but opening
or reading the file fails, the error propagates through both `?` operators
and the process terminates. -/
theorem c2_amended_source_unavailable :
    (∀ openResult : Except Unit (List String),
        play_custom_song false openResult = Except.ok SongOutcome.fileNotFound ∧
        mainCustomSongStep false openResult = MainStep.continueMenu) ∧
    ∀ e : Unit,
        play_custom_song true (Except.error e) = Except.error e ∧
        mainCustomSongStep true (Except.error e) = MainStep.terminated := by
  exact ⟨fun _ => ⟨rfl, rfl⟩, fun _ => ⟨rfl, rfl⟩⟩

/-- C3: a duration token that upper-cases to the code at step `i` of
`W, H, Q, E, S` resolves to the rounded value of `1000 / 2^i` milliseconds
(`(2·1000 + 2^i) / 2^(i+1)` is `1000/2^i` rounded to nearest, half up):
`W`=1000, `H`=500, `Q`=250, `E`=125, and `S`=63, the rounding of 62.5. -/
theorem c3_duration_halving (s : String) (i : Nat) (hi : i < 5)
    (hs : toUpperStr s = ["W", "H", "Q", "E", "S"].getD i "") :
    resolveDuration s = some ((2 * 1000 + 2 ^ i) / 2 ^ (i + 1)) := by
  interval_cases i <;>
    (simp only [List.getD] at hs
     unfold resolveDuration
     rw [hs]
     rfl)

/-- Witness for C3 at the token `"e"`, step 3 (eighth = 125 ms). -/
theorem c3_duration_halving_witness :
    3 < 5 ∧ toUpperStr "e" = ["W", "H", "Q", "E", "S"].getD 3 "" ∧
      resolveDuration "e" = some ((2 * 1000 + 2 ^ 3) / 2 ^ (3 + 1)) :=
  ⟨by decide, by decide, c3_duration_halving "e" 3 (by decide) (by decide)⟩

/-- C4: the three-line source `E4 Q`, `REST Q`, `440 H` parses to exactly
`[{330, 250}, {0, 250}, {440, 500}]`, in order (and with no warnings). -/
theorem c4_example_parse :
    parseMelody ["E4 Q", "REST Q", "440 H"] =
      ([Note.mk 330 250, Note.mk 0 250, Note.mk 440 500], []) := by
  decide

/-- C5: a two-token line whose note token resolves to neither a table key
(after upper-casing) nor an unsigned integer yields a warning naming the
(upper-cased) unknown token, contributes no event, and leaves the parse of
every following line unchanged. -/
theorem c5_unknown_note_skipped (l : String) (rest : List String)
    (hcomment : startsWithHash (myTrim l) = false)
    (hlen : (splitWhitespace (myTrim l)).length = 2)
    (hfreq : resolveFrequency ((splitWhitespace (myTrim l)).getD 0 "") = none) :
    processLine l =
      LineResult.warn ("Warning: Unknown note name: " ++
        toUpperStr ((splitWhitespace (myTrim l)).getD 0 "")) ∧
    parseMelody (l :: rest) =
      ((parseMelody rest).1,
       ("Warning: Unknown note name: " ++
          toUpperStr ((splitWhitespace (myTrim l)).getD 0 "")) :: (parseMelody rest).2) := by
  have hne := data_not_empty_of_split_len _ hlen
  have hp : processLine l =
      LineResult.warn ("Warning: Unknown note name: " ++
        toUpperStr ((splitWhitespace (myTrim l)).getD 0 "")) := by
    simp only [processLine]
    split
    · rename_i hcond
      rw [hne, hcomment] at hcond
      simp at hcond
    · split
      · rename_i hlen2
        exact absurd hlen hlen2
      · split
        · rfl
        · rename_i freq heq
          rw [hfreq] at heq
          cases heq
  exact ⟨hp, by simp [parseMelody, hp]⟩

/-- Witness for C5 at the line `"ZZ4 Q"` followed by the valid `"C4 Q"`. -/
theorem c5_unknown_note_skipped_witness :
    startsWithHash (myTrim "ZZ4 Q") = false ∧
    (splitWhitespace (myTrim "ZZ4 Q")).length = 2 ∧
    resolveFrequency ((splitWhitespace (myTrim "ZZ4 Q")).getD 0 "") = none ∧
    (processLine "ZZ4 Q" =
      LineResult.warn ("Warning: Unknown note name: " ++
        toUpperStr ((splitWhitespace (myTrim "ZZ4 Q")).getD 0 "")) ∧
     parseMelody ["ZZ4 Q", "C4 Q"] =
      ((parseMelody ["C4 Q"]).1,
       ("Warning: Unknown note name: " ++
          toUpperStr ((splitWhitespace (myTrim "ZZ4 Q")).getD 0 "")) ::
         (parseMelody ["C4 Q"]).2)) :=
  ⟨by decide, by decide, by decide,
   c5_unknown_note_skipped "ZZ4 Q" ["C4 Q"] (by decide) (by decide) (by decide)⟩

/-- C6: a source none of whose lines pushes a note (for example only
comments and blanks) parses to the empty sequence; `play_custom_song` then
takes the distinct non-fatal `No valid notes found` return, and in
particular never reaches the playback loop. -/
theorem c6_all_skipped_no_playback (lines : List String)
    (h : ∀ l ∈ lines, (processLine l).isEvent = false) :
    (parseMelody lines).1 = [] ∧
    play_custom_song true (Except.ok lines) = Except.ok SongOutcome.noValidNotes ∧
    ∀ beeps : List Note,
      play_custom_song true (Except.ok lines) ≠ Except.ok (SongOutcome.played beeps) := by
  have hempty := parseMelody_no_events lines h
  refine ⟨hempty, ?_, ?_⟩
  · simp [play_custom_song, hempty]
  · intro beeps hcontra
    simp [play_custom_song, hempty] at hcontra

/-- Witness for C6 at a source of one comment, one blank and one
whitespace-only line. -/
theorem c6_all_skipped_no_playback_witness :
    (∀ l ∈ ["# a comment", "", "   "], (processLine l).isEvent = false) ∧
    ((parseMelody ["# a comment", "", "   "]).1 = [] ∧
     play_custom_song true (Except.ok ["# a comment", "", "   "]) =
       Except.ok SongOutcome.noValidNotes ∧
     ∀ beeps : List Note,
       play_custom_song true (Except.ok ["# a comment", "", "   "]) ≠
         Except.ok (SongOutcome.played beeps)) :=
  ⟨by decide, c6_all_skipped_no_playback ["# a comment", "", "   "] (by decide)⟩

/-- C7: note and duration lookup upper-case the token first, so `"c4 q"`,
`"C4 Q"` and `"C4 q"` all parse to the identical event `{262, 250}`. -/
theorem c7_case_insensitive :
    processLine "c4 q" = LineResult.event (Note.mk 262 250) ∧
    processLine "C4 Q" = LineResult.event (Note.mk 262 250) ∧
    processLine "C4 q" = LineResult.event (Note.mk 262 250) := by
  decide

/-- C8: the Jingle Bells preset written as one `<NOTE> <DURATION>` directive
per note parses back to exactly the hardcoded `notes` array of
`play_jingle_bells` (with no warnings) — the tone table is consistent
between the two construction paths. -/
theorem c8_jingle_bells_roundtrip :
    parseMelody jingleBellsText = (jingleBells, []) := by
  decide

/-- C9: a non-empty, non-comment line that does not split into exactly two
tokens yields an `Invalid line format` warning identifying the line,
contributes no event, and leaves the parse of the remaining lines
unchanged. -/
theorem c9_malformed_line_skipped (l : String) (rest : List String)
    (hne : (myTrim l).data.isEmpty = false)
    (hcomment : startsWithHash (myTrim l) = false)
    (hlen : (splitWhitespace (myTrim l)).length ≠ 2) :
    processLine l = LineResult.warn ("Warning: Invalid line format: " ++ myTrim l) ∧
    parseMelody (l :: rest) =
      ((parseMelody rest).1,
       ("Warning: Invalid line format: " ++ myTrim l) :: (parseMelody rest).2) := by
  have hp : processLine l =
      LineResult.warn ("Warning: Invalid line format: " ++ myTrim l) := by
    simp [processLine, hne, hcomment, hlen]
  exact ⟨hp, by simp [parseMelody, hp]⟩

/-- Witness for C9 at the three-token line `"C4 Q Q"` followed by the valid
`"C4 Q"`. -/
theorem c9_malformed_line_skipped_witness :
    (myTrim "C4 Q Q").data.isEmpty = false ∧
    startsWithHash (myTrim "C4 Q Q") = false ∧
    (splitWhitespace (myTrim "C4 Q Q")).length ≠ 2 ∧
    (processLine "C4 Q Q" =
      LineResult.warn ("Warning: Invalid line format: " ++ myTrim "C4 Q Q") ∧
     parseMelody ["C4 Q Q", "C4 Q"] =
      ((parseMelody ["C4 Q"]).1,
       ("Warning: Invalid line format: " ++ myTrim "C4 Q Q") ::
         (parseMelody ["C4 Q"]).2)) :=
  ⟨by decide, by decide, by decide,
   c9_malformed_line_skipped "C4 Q Q" ["C4 Q"] (by decide) (by decide) (by decide)⟩

/-- C10: `kernel_beep` divides `HZ` by the requested frequency only on the
branch where the frequency is nonzero, so the `arg` computation — expressed
with a division that fails on a zero divisor — succeeds for every
(frequency, duration) input: it never divides by zero. -/
theorem c10_no_division_by_zero (frequency duration_ms : Nat) :
    (kernel_beep_arg frequency duration_ms).isSome = true := by
  unfold kernel_beep_arg checkedDiv
  by_cases hf : frequency = 0 <;> simp [hf]

end PcSpeaker
